import Mathlib

/-!
Verification of the TSR orchestration layer (`src/tsr/system.py`).

The embedding models the two consumption paths of a generated scene code:
the render output conversion (`process_output`, system.py lines 129-139)
and the mesh-extraction path (`set_marching_cubes_resolution`, lines
154-166, and `extract_mesh`, lines 168-241).

Python exceptions are modelled with `Except PyErr`; external collaborators
(the renderer's `query_triplane`, the `MarchingCubeHelper` call, `trimesh`)
are oracle functions collected in an `Env` record, with failure injection
so that every `try/except` branch of the source is exercised.  Tensors of
scalars are `List ℚ`, tensors of 3D points are `List (ℚ × ℚ × ℚ)`.
-/

/-- A Python exception value, as far as the orchestration code observes it. -/
inductive PyErr where
  | attributeError
  | notImplementedError
  | other (msg : String)
deriving DecidableEq

/-- A scene code is opaque to the orchestration layer; an id suffices. -/
abbrev SceneCode := Nat

/-- A 3D point (one row of an `(N, 3)` tensor). -/
abbrev Point3 := ℚ × ℚ × ℚ

/-- An RGB color (one row of an `(N, 3)` color tensor). -/
abbrev Color3 := ℚ × ℚ × ℚ

/-- A triangle: three vertex indices (one row of `t_pos_idx`). -/
abbrev Face3 := Nat × Nat × Nat

/-- Modelled from the spec: the `MarchingCubeHelper` object
(`models/isosurface.py`, absent from `src/`) holds a sampling grid at an
integer `resolution`; `grid_vertices` span the normalized cube given by
`points_range` (per-axis low/high, `[0, 1]` per the spec). -/
structure Helper where
  resolution : Nat
  points_range : ℚ × ℚ
  grid_vertices : List Point3
deriving DecidableEq

/-- A colored triangle mesh as assembled by `trimesh.Trimesh`. -/
structure Mesh where
  vertices : List Point3
  faces : List Face3
  vertex_colors : List Color3
deriving DecidableEq

/-- Modelled from the spec: `scale_tensor` (`utils.py`, absent from `src/`)
rescales a value from a source range to a destination range (affine remap). -/
def scale_tensor (x : ℚ) (src dst : ℚ × ℚ) : ℚ :=
  dst.1 + (x - src.1) * (dst.2 - dst.1) / (src.2 - src.1)

/-- `scale_tensor` applied coordinatewise to a 3D point. -/
def scale_point (p : Point3) (src dst : ℚ × ℚ) : Point3 :=
  (scale_tensor p.1 src dst, scale_tensor p.2.1 src dst, scale_tensor p.2.2 src dst)

/-- Modelled from the spec: the grid coordinate of index `i` at resolution
`r`, placing `r` samples across the normalized `[0, 1]` axis. -/
def grid_coord (r i : Nat) : ℚ :=
  if r ≤ 1 then 0 else (i : ℚ) / ((r : ℚ) - 1)

/-- Modelled from the spec: a successful `MarchingCubeHelper(resolution)`
construction yields a helper whose grid has `resolution ^ 3` vertices
spanning `points_range = [0, 1]` per axis. -/
def MarchingCubeHelper.build (r : Nat) : Helper :=
  { resolution := r
    points_range := (0, 1)
    grid_vertices :=
      (List.range r).flatMap fun i =>
        (List.range r).flatMap fun j =>
          (List.range r).map fun k => (grid_coord r i, grid_coord r j, grid_coord r k) }

/-- The external collaborators `extract_mesh` invokes, as oracles.
`radius` is `self.renderer.cfg.radius`; `query_triplane_density` is
`renderer.query_triplane(...)["density_act"]`; `query_triplane_color` is
`renderer.query_triplane(...)["color"]`; `run_marching_cubes` is the
`self.isosurface_helper(field)` call; `trimesh_build` is `trimesh.Trimesh`;
`mc_build_fails r` injects a failure into `MarchingCubeHelper(r)`. -/
structure Env where
  radius : ℚ
  query_triplane_density : List Point3 → SceneCode → Except PyErr (List ℚ)
  query_triplane_color : List Point3 → SceneCode → Except PyErr (List Color3)
  run_marching_cubes : Helper → List ℚ → Except PyErr (List Point3 × List Face3)
  trimesh_build : List Point3 → List Face3 → List Color3 → Except PyErr Mesh
  mc_build_fails : Nat → Option PyErr

/-- `MarchingCubeHelper(resolution)` under the env's failure injection. -/
def build_marching_cube_helper (env : Env) (r : Nat) : Except PyErr Helper :=
  match env.mc_build_fails r with
  | some e => .error e
  | none => .ok (MarchingCubeHelper.build r)

/-- The `try:` block of `set_marching_cubes_resolution` (system.py lines
157-164): cache hit when a helper at `resolution` is already stored,
otherwise rebuild; a build failure propagates out of the block.  The `Bool`
records whether a rebuild was performed (line 163 executed). -/
def set_mcr_try (env : Env) (helper : Option Helper) (resolution : Nat) :
    Except PyErr (Option Helper × Bool) :=
  match helper with
  | some h =>
    if h.resolution = resolution then .ok (helper, false)
    else
      match build_marching_cube_helper env resolution with
      | .ok hnew => .ok (some hnew, true)
      | .error e => .error e
  | none =>
    match build_marching_cube_helper env resolution with
    | .ok hnew => .ok (some hnew, true)
    | .error e => .error e

/-- `TSR.set_marching_cubes_resolution` (system.py lines 154-166): the try
block wrapped in the broad `except Exception` handler, which logs and
returns normally, leaving the stored helper as it was.  The `Except` layer
in the result type expresses that a Python call may raise; this function's
handler converts every failure into a normal return. -/
def set_marching_cubes_resolution (env : Env) (helper : Option Helper) (resolution : Nat) :
    Except PyErr (Option Helper × Bool) :=
  match set_mcr_try env helper resolution with
  | .ok v => .ok v
  | .error _ => .ok (helper, false)

/-- The helper stored in `self.isosurface_helper` after
`set_marching_cubes_resolution` returns. -/
def mcr_state (env : Env) (helper : Option Helper) (resolution : Nat) : Option Helper :=
  match set_marching_cubes_resolution env helper resolution with
  | .ok (h, _) => h
  | .error _ => helper

/-- The points handed to the density query (system.py lines 185-189):
`grid_vertices` rescaled from the helper's `points_range` to
`(-radius, radius)`. -/
def density_query_points (env : Env) (h : Helper) : List Point3 :=
  h.grid_vertices.map fun p => scale_point p h.points_range (-env.radius, env.radius)

/-- The field handed to the iso-surface helper (system.py line 203):
`-(density - threshold)` elementwise. -/
def mc_field (threshold : ℚ) (density : List ℚ) : List ℚ :=
  density.map fun d => -(d - threshold)

/-- One iteration of the `for scene_code in scene_codes` body of
`extract_mesh` (system.py lines 178-238), excluding the trailing
`return meshes`: `none` means every `except` path that ends in `continue`.
When no helper is stored, the `self.isosurface_helper.grid_vertices`
access raises inside the density-query `try` and is caught there. -/
def process_scene_code (env : Env) (helper : Option Helper) (threshold : ℚ)
    (code : SceneCode) : Option Mesh :=
  match helper with
  | none => none
  | some h =>
    match env.query_triplane_density (density_query_points env h) code with
    | .error _ => none
    | .ok density =>
      match env.run_marching_cubes h (mc_field threshold density) with
      | .error _ => none
      | .ok (v_pos, t_pos_idx) =>
        let v_pos_phys := v_pos.map fun p => scale_point p h.points_range (-env.radius, env.radius)
        match env.query_triplane_color v_pos_phys code with
        | .error _ => none
        | .ok color =>
          match env.trimesh_build v_pos_phys t_pos_idx color with
          | .error _ => none
          | .ok mesh => some mesh

/-- The per-item loop of `extract_mesh` (system.py lines 177-241): a failed
item `continue`s to the next scene code; a successful item appends its mesh
and immediately executes the in-loop `return meshes` (line 241); falling off
the loop returns Python `None`. -/
def extract_loop (env : Env) (helper : Option Helper) (threshold : ℚ) :
    List SceneCode → List Mesh → Option (List Mesh)
  | [], _ => none
  | code :: rest, meshes =>
    match process_scene_code env helper threshold code with
    | some mesh => some (meshes ++ [mesh])
    | none => extract_loop env helper threshold rest meshes

/-- `TSR.extract_mesh` (system.py lines 168-241).  Result: the helper state
after the call, and the Python return value (`none` = Python `None`).  The
`.error` arm is the `except` branch around the setup call (lines 172-174). -/
def extract_mesh (env : Env) (helper : Option Helper) (scene_codes : List SceneCode)
    (resolution : Nat) (threshold : ℚ) : Option Helper × Option (List Mesh) :=
  match set_marching_cubes_resolution env helper resolution with
  | .error _ => (helper, none)
  | .ok (h1, _) => (h1, extract_loop env h1 threshold scene_codes [])

/-- An image tensor flattened to its pixel values. -/
abbrev ImageTensor := List ℚ

/-- The value `process_output` returns for each supported `return_type`. -/
inductive RenderOutput where
  | pt (image : ImageTensor)
  | np (image : ImageTensor)
  | pil (pixels : List Nat)
deriving DecidableEq

/-- The numpy `astype(np.uint8)` cast of a float: truncation toward zero
(floor, for the non-negative values the renderer produces) reduced into the
unsigned byte range. -/
def np_uint8_cast (x : ℚ) : Nat :=
  Int.toNat ⌊x⌋ % 256

/-- The per-pixel `"pil"` conversion of `process_output` (system.py line
136): `(image * 255.0).astype(np.uint8)`. -/
def pil_pixel (x : ℚ) : Nat :=
  np_uint8_cast (x * 255)

/-- `process_output` inside `TSR.render` (system.py lines 129-139): the
`"pt"` branch returns the tensor, `"np"` the host copy, `"pil"` the byte
image, and any other `return_type` raises `NotImplementedError`. -/
def process_output (return_type : String) (image : ImageTensor) :
    Except PyErr RenderOutput :=
  if return_type = "pt" then .ok (.pt image)
  else if return_type = "np" then .ok (.np image)
  else if return_type = "pil" then .ok (.pil (image.map pil_pixel))
  else .error .notImplementedError

/-- Follows the spec's words, for comparison with the implementation:
`round(x*255)` cast to unsigned byte. -/
def spec_pil_pixel (x : ℚ) : Nat :=
  Int.toNat (round (x * 255)) % 256

/-- A helper cached at resolution 2 (8 grid vertices in `[0,1]^3`). -/
def hC : Helper := MarchingCubeHelper.build 2

/-- A concrete environment: the density query fails for scene code `0` and
succeeds for every other code; the color query tags its result with the
scene code; marching cubes and mesh assembly always succeed; helper
construction never fails. -/
def envC : Env :=
  { radius := 1
    query_triplane_density := fun _ code =>
      if code = 0 then .error (.other "density boom") else .ok [0]
    query_triplane_color := fun _ code => .ok [((code : ℚ), 0, 0)]
    run_marching_cubes := fun _ _ => .ok ([(0, 0, 0)], [(0, 1, 2)])
    trimesh_build := fun v f c => .ok { vertices := v, faces := f, vertex_colors := c }
    mc_build_fails := fun _ => none }

/-- The mesh `envC` produces for scene code `1`. -/
def mesh1 : Mesh :=
  { vertices := [(-1, -1, -1)], faces := [(0, 1, 2)], vertex_colors := [(1, 0, 0)] }

/-- The mesh `envC`-like environments produce for scene code `0` when its
density query is made to succeed. -/
def mesh0 : Mesh :=
  { vertices := [(-1, -1, -1)], faces := [(0, 1, 2)], vertex_colors := [(0, 0, 0)] }

/-- A concrete environment in which every density query succeeds but
`MarchingCubeHelper(3)` raises during construction. -/
def envB : Env :=
  { envC with
    query_triplane_density := fun _ _ => .ok [0]
    mc_build_fails := fun r => if r = 3 then some (.other "mc build boom") else none }

/-! ## Shared lemmas -/

/-- The broad `except Exception` handler makes `set_marching_cubes_resolution`
return normally on every input. -/
theorem set_mcr_returns_normally (env : Env) (helper : Option Helper) (resolution : Nat) :
    ∃ v, set_marching_cubes_resolution env helper resolution = .ok v := by
  unfold set_marching_cubes_resolution
  cases set_mcr_try env helper resolution with
  | ok v => exact ⟨v, rfl⟩
  | error e => exact ⟨(helper, false), rfl⟩

/-- A stored helper already at the requested resolution is a cache hit:
no rebuild, state untouched. -/
theorem set_mcr_cache_hit (env : Env) (h : Helper) (resolution : Nat)
    (hres : h.resolution = resolution) :
    set_marching_cubes_resolution env (some h) resolution = .ok (some h, false) := by
  simp [set_marching_cubes_resolution, set_mcr_try, hres]

/-- When helper construction succeeds, the state after
`set_marching_cubes_resolution` holds a helper at the requested resolution. -/
theorem mcr_state_resolution (env : Env) (helper : Option Helper) (resolution : Nat)
    (hbuild : env.mc_build_fails resolution = none) :
    ∃ h, mcr_state env helper resolution = some h ∧ h.resolution = resolution := by
  cases helper with
  | none =>
    exact ⟨MarchingCubeHelper.build resolution,
      by simp [mcr_state, set_marching_cubes_resolution, set_mcr_try,
        build_marching_cube_helper, hbuild], rfl⟩
  | some h =>
    by_cases hres : h.resolution = resolution
    · exact ⟨h, by simp [mcr_state, set_marching_cubes_resolution, set_mcr_try, hres], hres⟩
    · exact ⟨MarchingCubeHelper.build resolution,
        by simp [mcr_state, set_marching_cubes_resolution, set_mcr_try,
          build_marching_cube_helper, hbuild, hres], rfl⟩

/-- The per-item loop returns the first successfully built mesh appended to
the accumulator, and Python `None` when no item succeeds. -/
theorem extract_loop_eq_findSome (env : Env) (helper : Option Helper) (threshold : ℚ) :
    ∀ (codes : List SceneCode) (meshes : List Mesh),
      extract_loop env helper threshold codes meshes
        = (codes.findSome? (process_scene_code env helper threshold)).map
            (fun m => meshes ++ [m]) := by
  intro codes
  induction codes with
  | nil => intro meshes; rfl
  | cons c rest ih =>
    intro meshes
    rw [extract_loop, List.findSome?_cons]
    cases process_scene_code env helper threshold c with
    | some m => rfl
    | none => exact ih meshes

/-! ## Claim theorems -/

/-- C5: `set_marching_cubes_resolution` never propagates an exception to its
caller (its broad handler catches and logs every failure, leaving the helper
field as it was), so in `extract_mesh` the `except` branch guarding the setup
call — the branch that returns `None` — is unreachable for every input:
`extract_mesh` always takes the normal-return arm of the setup match. -/
theorem set_mcr_never_raises_so_setup_guard_is_dead
    (env : Env) (helper : Option Helper) (codes : List SceneCode)
    (resolution : Nat) (threshold : ℚ) :
    (∃ v, set_marching_cubes_resolution env helper resolution = .ok v) ∧
    extract_mesh env helper codes resolution threshold
      = (mcr_state env helper resolution,
         extract_loop env (mcr_state env helper resolution) threshold codes []) := by
  refine ⟨set_mcr_returns_normally env helper resolution, ?_⟩
  obtain ⟨⟨h1, b⟩, hv⟩ := set_mcr_returns_normally env helper resolution
  simp [extract_mesh, mcr_state, hv]

/-- C7: if rebuilding the iso-surface grid fails, `set_marching_cubes_resolution`
catches and logs the exception and leaves the stored helper exactly as it was
(the previous helper, or `none`), for every prior state and requested
resolution. -/
theorem set_mcr_keeps_state_on_build_failure
    (env : Env) (helper : Option Helper) (resolution : Nat) (e : PyErr)
    (hfail : env.mc_build_fails resolution = some e) :
    set_marching_cubes_resolution env helper resolution = .ok (helper, false) := by
  cases helper with
  | none =>
    simp [set_marching_cubes_resolution, set_mcr_try, build_marching_cube_helper, hfail]
  | some h =>
    by_cases hres : h.resolution = resolution
    · simp [set_marching_cubes_resolution, set_mcr_try, hres]
    · simp [set_marching_cubes_resolution, set_mcr_try, build_marching_cube_helper,
        hfail, hres]

/-- Witness for C7: with `MarchingCubeHelper(3)` raising and a helper at
resolution 2 cached, the call returns normally with the old helper kept. -/
theorem set_mcr_keeps_state_on_build_failure_witness :
    envB.mc_build_fails 3 = some (.other "mc build boom") ∧
    set_marching_cubes_resolution envB (some hC) 3 = .ok (some hC, false) :=
  ⟨rfl, set_mcr_keeps_state_on_build_failure envB (some hC) 3 (.other "mc build boom") rfl⟩

/-- C8: the helper cache is keyed by resolution equality: calling
`set_marching_cubes_resolution` again with the resolution the stored helper
already has performs no rebuild and leaves the stored helper untouched, while
calling it with a different resolution (when the build succeeds) replaces the
helper with a newly built one at the new resolution. -/
theorem set_mcr_cache_keyed_by_resolution
    (env : Env) (helper : Option Helper) (r r2 : Nat) (hh : Helper) :
    (env.mc_build_fails r = none →
      set_marching_cubes_resolution env (mcr_state env helper r) r
        = .ok (mcr_state env helper r, false)) ∧
    (hh.resolution = r → r2 ≠ r → env.mc_build_fails r2 = none →
      set_marching_cubes_resolution env (some hh) r2
        = .ok (some (MarchingCubeHelper.build r2), true)
      ∧ (MarchingCubeHelper.build r2).resolution = r2) := by
  constructor
  · intro hbuild
    obtain ⟨h1, hstate, hres⟩ := mcr_state_resolution env helper r hbuild
    rw [hstate]
    exact set_mcr_cache_hit env h1 r hres
  · intro hres hne hbuild
    refine ⟨?_, rfl⟩
    simp [set_marching_cubes_resolution, set_mcr_try, build_marching_cube_helper,
      hbuild, hres, hne.symm]

/-- Witness for C8: building at resolution 2, re-requesting 2 is a cache hit;
requesting 3 afterwards replaces the helper with a fresh one at 3. -/
theorem set_mcr_cache_keyed_by_resolution_witness :
    envC.mc_build_fails 2 = none ∧
    set_marching_cubes_resolution envC (mcr_state envC none 2) 2
      = .ok (mcr_state envC none 2, false) ∧
    ((MarchingCubeHelper.build 2).resolution = 2 ∧ (3 : Nat) ≠ 2
      ∧ envC.mc_build_fails 3 = none) ∧
    (set_marching_cubes_resolution envC (some (MarchingCubeHelper.build 2)) 3
        = .ok (some (MarchingCubeHelper.build 3), true)
      ∧ (MarchingCubeHelper.build 3).resolution = 3) :=
  ⟨rfl,
   (set_mcr_cache_keyed_by_resolution envC none 2 3 (MarchingCubeHelper.build 2)).1 rfl,
   ⟨rfl, by decide, rfl⟩,
   (set_mcr_cache_keyed_by_resolution envC none 2 3 (MarchingCubeHelper.build 2)).2
     rfl (by decide) rfl⟩

/-- C9: for every `return_type` other than `"pt"`, `"np"` and `"pil"`,
`process_output` raises `NotImplementedError` (it neither logs, skips, nor
defaults to a supported format), for every image. -/
theorem process_output_unsupported_type_raises
    (return_type : String) (image : ImageTensor)
    (hpt : return_type ≠ "pt") (hnp : return_type ≠ "np") (hpil : return_type ≠ "pil") :
    process_output return_type image = .error .notImplementedError := by
  simp [process_output, hpt, hnp, hpil]

/-- Witness for C9 at the unsupported `return_type` value `"jpeg"`. -/
theorem process_output_unsupported_type_raises_witness :
    ("jpeg" ≠ "pt" ∧ "jpeg" ≠ "np" ∧ "jpeg" ≠ "pil") ∧
    process_output "jpeg" [] = .error .notImplementedError :=
  ⟨⟨by decide, by decide, by decide⟩,
   process_output_unsupported_type_raises "jpeg" [] (by decide) (by decide) (by decide)⟩

/-- C10 counterexample: the `"pil"` conversion truncates rather than rounds.
At pixel value `1/2` the code produces byte `127` while the claimed mapping
`round(x*255)` produces `128`. -/
theorem process_output_pil_does_not_round :
    pil_pixel (1/2) = 127 ∧ spec_pil_pixel (1/2) = 128 ∧ (127 : Nat) ≠ 128 ∧
    process_output "pil" [(1 : ℚ)/2] = .ok (.pil [127]) := by
  refine ⟨?_, ?_, by decide, ?_⟩
  · norm_num [pil_pixel, np_uint8_cast]
    rfl
  · norm_num [spec_pil_pixel, round_eq]
    rfl
  · norm_num [process_output, pil_pixel, np_uint8_cast]
    rfl

/-- C10 (amended): with `return_type = "pil"` each pixel value `x` is mapped
to `x*255` truncated to an unsigned byte (not rounded); in particular an
all-zero tensor yields an image whose every pixel is 0 and an all-one tensor
yields an image whose every pixel is 255. -/
theorem process_output_pil_truncates (image : ImageTensor) (n : Nat) :
    process_output "pil" image = .ok (.pil (image.map pil_pixel)) ∧
    process_output "pil" (List.replicate n 0) = .ok (.pil (List.replicate n 0)) ∧
    process_output "pil" (List.replicate n 1) = .ok (.pil (List.replicate n 255)) := by
  have hmap : ∀ img : ImageTensor,
      process_output "pil" img = .ok (.pil (img.map pil_pixel)) := by
    intro img
    simp [process_output]
  have h0 : pil_pixel 0 = 0 := by
    norm_num [pil_pixel, np_uint8_cast]
  have h1 : pil_pixel 1 = 255 := by
    norm_num [pil_pixel, np_uint8_cast]
    rfl
  refine ⟨hmap image, ?_, ?_⟩
  · rw [hmap, List.map_replicate, h0]
  · rw [hmap, List.map_replicate, h1]

/-- C1: evaluation at the failing input.  With a helper at resolution 2
cached and `MarchingCubeHelper(3)` raising, `extract_mesh(scene_codes=[0],
resolution=3)` does NOT abort with `None`: the setup failure is swallowed
inside `set_marching_cubes_resolution`, the stale resolution-2 helper is
kept, the per-item loop runs, and a mesh list is returned — contradicting
the claimed fail-fast whole-call abort. -/
theorem extract_mesh_not_fail_fast_on_setup_failure :
    envB.mc_build_fails 3 = some (.other "mc build boom") ∧
    set_marching_cubes_resolution envB (some hC) 3 = .ok (some hC, false) ∧
    extract_mesh envB (some hC) [0] 3 25 = (some hC, some [mesh0]) := by
  refine ⟨rfl, ?_, ?_⟩
  · simp [set_marching_cubes_resolution, set_mcr_try, build_marching_cube_helper,
      envB, envC, hC, MarchingCubeHelper.build]
  · norm_num [extract_mesh, extract_loop, set_marching_cubes_resolution, set_mcr_try,
      build_marching_cube_helper, process_scene_code, envB, envC, hC,
      density_query_points, mc_field, scale_point, scale_tensor, mesh0,
      MarchingCubeHelper.build]

/-- C2 counterexample: resolution setup succeeds (cache hit on the stored
resolution-2 helper), yet `extract_mesh` returns Python `None` — on a batch
whose only item fails its density query, and on the empty batch — because
the function falls off the end of the loop without a `return`. -/
theorem extract_mesh_none_despite_setup_success :
    set_marching_cubes_resolution envC (some hC) 2 = .ok (some hC, false) ∧
    extract_mesh envC (some hC) [0] 2 25 = (some hC, none) ∧
    extract_mesh envC (some hC) [] 2 25 = (some hC, none) := by
  refine ⟨?_, ?_, ?_⟩
  · simp [set_marching_cubes_resolution, set_mcr_try, hC, MarchingCubeHelper.build]
  · simp [extract_mesh, extract_loop, set_marching_cubes_resolution, set_mcr_try,
      process_scene_code, envC, hC, MarchingCubeHelper.build]
  · simp [extract_mesh, extract_loop, set_marching_cubes_resolution, set_mcr_try,
      hC, MarchingCubeHelper.build]

/-- C2 (amended): `extract_mesh` returns a list exactly when some scene code
is processed successfully — the singleton holding the first successfully
built mesh — and returns `None` when the batch is empty or every item fails;
the setup step itself never makes the call abort. -/
theorem extract_mesh_first_success_or_none
    (env : Env) (helper : Option Helper) (codes : List SceneCode)
    (resolution : Nat) (threshold : ℚ) :
    extract_mesh env helper codes resolution threshold
      = (mcr_state env helper resolution,
         (codes.findSome?
             (process_scene_code env (mcr_state env helper resolution) threshold)).map
           (fun m => [m])) := by
  obtain ⟨⟨h1, b⟩, hv⟩ := set_mcr_returns_normally env helper resolution
  simp [extract_mesh, mcr_state, hv, extract_loop_eq_findSome]

/-- C3 counterexample: on the two-element batch `[0, 1]` whose first item
fails its density query, the loop does process the second scene code and
returns its mesh (`mesh1` carries scene code 1's color tag), so the claim
that only the first scene code is ever processed is false. -/
theorem extract_mesh_processes_second_scene_code :
    process_scene_code envC (some hC) 25 0 = none ∧
    extract_mesh envC (some hC) [0, 1] 2 25 = (some hC, some [mesh1]) := by
  constructor
  · simp [process_scene_code, envC]
  · norm_num [extract_mesh, extract_loop, set_marching_cubes_resolution, set_mcr_try,
      process_scene_code, envC, hC, density_query_points, mc_field,
      scale_point, scale_tensor, mesh1, MarchingCubeHelper.build]

/-- C3 (amended): the per-item loop returns right after the first scene code
that is processed successfully (early return inside the loop): failing items
before it are skipped, and scene codes after the first success are never
examined — the result is the same for every tail `rest`. -/
theorem extract_loop_returns_after_first_success
    (env : Env) (helper : Option Helper) (threshold : ℚ)
    (pre : List SceneCode) (c : SceneCode) (rest : List SceneCode)
    (meshes : List Mesh) (m : Mesh)
    (hpre : ∀ p ∈ pre, process_scene_code env helper threshold p = none)
    (hc : process_scene_code env helper threshold c = some m) :
    extract_loop env helper threshold (pre ++ c :: rest) meshes
      = some (meshes ++ [m]) := by
  induction pre generalizing meshes with
  | nil => simp [extract_loop, hc]
  | cons p ps ih =>
    have hp : process_scene_code env helper threshold p = none := hpre p (by simp)
    rw [List.cons_append, extract_loop, hp]
    exact ih meshes (fun q hq => hpre q (List.mem_cons_of_mem p hq))

/-- Witness for C3 (amended): first item fails, second succeeds; the two
trailing scene codes are never reached and the result is the second item's
mesh alone. -/
theorem extract_loop_returns_after_first_success_witness :
    (∀ p ∈ [(0 : SceneCode)], process_scene_code envC (some hC) 25 p = none) ∧
    process_scene_code envC (some hC) 25 1 = some mesh1 ∧
    extract_loop envC (some hC) 25 ([0] ++ 1 :: [5, 7]) [] = some ([] ++ [mesh1]) := by
  have hfail : ∀ p ∈ [(0 : SceneCode)], process_scene_code envC (some hC) 25 p = none := by
    intro p hp
    simp only [List.mem_singleton] at hp
    subst hp
    simp [process_scene_code, envC]
  have hok : process_scene_code envC (some hC) 25 1 = some mesh1 := by
    norm_num [process_scene_code, envC, hC, density_query_points, mc_field,
      scale_point, scale_tensor, mesh1, MarchingCubeHelper.build]
  exact ⟨hfail, hok,
    extract_loop_returns_after_first_success envC (some hC) 25 [0] 1 [5, 7] [] mesh1
      hfail hok⟩

/-- C4: on a two-element batch in which one scene code fails its density
query and the other succeeds through all stages, `extract_mesh` (entered
with the helper already at the requested resolution) returns a result in
which the failing item's mesh is absent and the succeeding item's mesh is
present, in either batch order: a per-item failure aborts only that scene
code's mesh and the loop proceeds to the next. -/
theorem extract_mesh_isolates_density_failure
    (env : Env) (h : Helper) (resolution : Nat) (threshold : ℚ)
    (cf cs : SceneCode) (m : Mesh) (e : PyErr)
    (hres : h.resolution = resolution)
    (hfail : env.query_triplane_density (density_query_points env h) cf = .error e)
    (hok : process_scene_code env (some h) threshold cs = some m) :
    extract_mesh env (some h) [cf, cs] resolution threshold = (some h, some [m]) ∧
    extract_mesh env (some h) [cs, cf] resolution threshold = (some h, some [m]) := by
  have hsetup := set_mcr_cache_hit env h resolution hres
  have hfnone : process_scene_code env (some h) threshold cf = none := by
    simp [process_scene_code, hfail]
  constructor
  · simp [extract_mesh, hsetup, extract_loop, hfnone, hok]
  · simp [extract_mesh, hsetup, extract_loop, hok]

/-- Witness for C4: scene code 0 fails its density query, scene code 1
succeeds; both batch orders return exactly scene code 1's mesh. -/
theorem extract_mesh_isolates_density_failure_witness :
    (hC.resolution = 2 ∧
     envC.query_triplane_density (density_query_points envC hC) 0
       = .error (.other "density boom") ∧
     process_scene_code envC (some hC) 25 1 = some mesh1) ∧
    (extract_mesh envC (some hC) [0, 1] 2 25 = (some hC, some [mesh1]) ∧
     extract_mesh envC (some hC) [1, 0] 2 25 = (some hC, some [mesh1])) := by
  have hres : hC.resolution = 2 := rfl
  have hfail : envC.query_triplane_density (density_query_points envC hC) 0
      = .error (.other "density boom") := rfl
  have hok : process_scene_code envC (some hC) 25 1 = some mesh1 := by
    norm_num [process_scene_code, envC, hC, density_query_points, mc_field,
      scale_point, scale_tensor, mesh1, MarchingCubeHelper.build]
  exact ⟨⟨hres, hfail, hok⟩,
    extract_mesh_isolates_density_failure envC hC 2 25 0 1 mesh1 (.other "density boom")
      hres hfail hok⟩

/-- C6: the coordinate and threshold data flow of `extract_mesh` per scene
code: the density query receives the helper's grid vertices rescaled from
`points_range` to `[-radius, radius]`; the iso-surface helper receives the
field `-(density - threshold)`, which equals `threshold - density` pointwise
(so the extracted surface is the zero-crossing of `threshold - density`);
and the resulting vertices are rescaled from `points_range` to
`[-radius, radius]` before being used for the color query and the mesh. -/
theorem extract_mesh_coordinate_and_threshold_flow
    (env : Env) (h : Helper) (threshold : ℚ) (code : SceneCode)
    (density : List ℚ) (v_pos : List Point3) (t_pos_idx : List Face3)
    (color : List Color3) (mesh : Mesh) :
    density_query_points env h
      = h.grid_vertices.map
          (fun p => scale_point p h.points_range (-env.radius, env.radius)) ∧
    mc_field threshold density = density.map (fun d => threshold - d) ∧
    (env.query_triplane_density (density_query_points env h) code = .ok density →
     env.run_marching_cubes h (mc_field threshold density) = .ok (v_pos, t_pos_idx) →
     env.query_triplane_color
         (v_pos.map fun p => scale_point p h.points_range (-env.radius, env.radius))
         code = .ok color →
     env.trimesh_build
         (v_pos.map fun p => scale_point p h.points_range (-env.radius, env.radius))
         t_pos_idx color = .ok mesh →
     process_scene_code env (some h) threshold code = some mesh) := by
  refine ⟨rfl, ?_, ?_⟩
  · simp [mc_field, neg_sub]
  · intro h1 h2 h3 h4
    simp [process_scene_code, h1, h2, h3, h4]

/-- Witness for C6: the full successful pipeline through `envC` for scene
code 1 at threshold 25, from grid query to assembled mesh. -/
theorem extract_mesh_coordinate_and_threshold_flow_witness :
    (envC.query_triplane_density (density_query_points envC hC) 1 = .ok [0] ∧
     envC.run_marching_cubes hC (mc_field 25 [0]) = .ok ([(0, 0, 0)], [(0, 1, 2)]) ∧
     envC.query_triplane_color
         ([((0 : ℚ), (0 : ℚ), (0 : ℚ))].map
           fun p => scale_point p hC.points_range (-envC.radius, envC.radius)) 1
       = .ok [(1, 0, 0)] ∧
     envC.trimesh_build
         ([((0 : ℚ), (0 : ℚ), (0 : ℚ))].map
           fun p => scale_point p hC.points_range (-envC.radius, envC.radius))
         [(0, 1, 2)] [(1, 0, 0)] = .ok mesh1) ∧
    process_scene_code envC (some hC) 25 1 = some mesh1 := by
  have h1 : envC.query_triplane_density (density_query_points envC hC) 1 = .ok [0] := rfl
  have h2 : envC.run_marching_cubes hC (mc_field 25 [0])
      = .ok ([(0, 0, 0)], [(0, 1, 2)]) := rfl
  have h3 : envC.query_triplane_color
      ([((0 : ℚ), (0 : ℚ), (0 : ℚ))].map
        fun p => scale_point p hC.points_range (-envC.radius, envC.radius)) 1
      = .ok [(1, 0, 0)] := by
    norm_num [envC]
  have h4 : envC.trimesh_build
      ([((0 : ℚ), (0 : ℚ), (0 : ℚ))].map
        fun p => scale_point p hC.points_range (-envC.radius, envC.radius))
      [(0, 1, 2)] [(1, 0, 0)] = .ok mesh1 := by
    norm_num [envC, hC, scale_point, scale_tensor, mesh1, MarchingCubeHelper.build]
  exact ⟨⟨h1, h2, h3, h4⟩,
    (extract_mesh_coordinate_and_threshold_flow envC hC 25 1 [0] [(0, 0, 0)]
        [(0, 1, 2)] [(1, 0, 0)] mesh1).2.2 h1 h2 h3 h4⟩
